import Mathlib

/-
Verification of the contact-form backend (portfolio server).

Shallow embedding of the repository's JavaScript sources:
  - src/routes/contactRoutes.js   (the contact pipeline: validate, persist,
    acquire transporter, send two mails, compose the response)
  - src/utils email variant src/unnamed/part_003 (createTransporter cache)
  - src/controllers/adminController.js and the duplicate admin router in
    src/middleware/authMiddleware.js (getMessages, markAsRead, login)
  - src/api/contact.js and src/pages/api/contact.js (serverless handlers)
  - src/unnamed/part_000 (loginAdmin variant keyed by username)

Conventions of the embedding:
  - JavaScript strings are Lean Strings; String.prototype.trim is modelled by
    jsTrim (drop leading and trailing whitespace characters), toLowerCase by
    lowerStr, and the includes check of the outer catch by containsSub.
  - The outcome of each external call (database save, transporter
    construction and verify, each sendMail) is an explicit input of the
    embedded function, since those calls are the only sources of
    nondeterminism; the list of attempted external calls is returned as an
    explicit effect trace.
  - Mongo ObjectIds are modelled as Nats handed out by position in the store;
    Date.now() is an explicit Nat argument.
  - bcrypt hashing is modelled by an injective constructor StoredCredential
    with comparePassword as preimage comparison.
-/

namespace Portfolio

/-! ## String helpers (models of the JavaScript string operations used) -/

/-- Model of JavaScript String.prototype.trim on the character list. -/
def trimChars (cs : List Char) : List Char :=
  ((cs.dropWhile Char.isWhitespace).reverse.dropWhile Char.isWhitespace).reverse

/-- Model of JavaScript String.prototype.trim. -/
def jsTrim (s : String) : String := String.mk (trimChars s.data)

/-- Model of JavaScript String.prototype.toLowerCase (per-character). -/
def lowerStr (s : String) : String := String.mk (s.data.map Char.toLower)

/-- Whether the first list is a leading segment of the second. -/
def listStartsWith : List Char → List Char → Bool
  | [], _ => true
  | _ :: _, [] => false
  | a :: as, b :: bs => a == b && listStartsWith as bs

/-- Whether the pattern occurs as a contiguous segment of the list. -/
def occursWithin (pat : List Char) : List Char → Bool
  | [] => listStartsWith pat []
  | b :: bs => listStartsWith pat (b :: bs) || occursWithin pat bs

/-- Model of JavaScript String.prototype.includes, as used in the outer
catch of contactRoutes.js (error.message includes a given pattern). -/
def containsSub (s pat : String) : Bool := occursWithin pat.data s.data

/-- The pragmatic email shape check of the repository: the regular
expression of src/api/contact.js is caret backslash-S plus at-sign
backslash-S plus dot backslash-S plus dollar, i.e. the whole string has no
whitespace and decomposes as nonempty, at-sign, nonempty, dot, nonempty.
Positions: some index i holds the at-sign with 1 le i, some later index j
holds the dot with i + 2 le j, and at least one character follows j. -/
def emailShapeOk (s : String) : Bool :=
  let cs := s.data
  cs.all (fun c => !c.isWhitespace) &&
  ((List.range cs.length).any fun i =>
    (List.range cs.length).any fun j =>
      decide (1 ≤ i) && decide (i + 2 ≤ j) && decide (j + 2 ≤ cs.length) &&
      (cs[i]? == some '@') && (cs[j]? == some '.'))

/-! ## Data model -/

/-- The inbound contact submission: the three raw body fields. -/
structure Submission where
  name : String
  email : String
  message : String
deriving Repr, DecidableEq

/-- A stored contact record, as given by the mongoose Contact schema:
name/email/message (trimmed, email lowercased by the schema), createdAt
assigned at persist time, isRead defaulting to false. The id models the
store-assigned ObjectId. -/
structure StoredRecord where
  id : Nat
  name : String
  email : String
  message : String
  createdAt : Nat
  isRead : Bool
deriving Repr, DecidableEq

/-- One field-level validation violation (express-validator error entry). -/
structure FieldViolation where
  field : String
  msg : String
deriving Repr, DecidableEq

/-! ## Validator of contactRoutes.js

The express-validator chain of src/routes/contactRoutes.js lines 20-33:
name trimmed then length in [2,50], email must be an email address
(modelled by the repository's own pragmatic shape check emailShapeOk),
message trimmed then length in [10,1000]. All three validators run; the
violations are collected, not fail-fast. -/

def nameLenOk (s : String) : Bool :=
  2 ≤ (jsTrim s).length && (jsTrim s).length ≤ 50

def messageLenOk (s : String) : Bool :=
  10 ≤ (jsTrim s).length && (jsTrim s).length ≤ 1000

/-- validationResult of the express route: the list of violations, one per
offending field, in validator order. -/
def validateContact (sub : Submission) : List FieldViolation :=
  (if nameLenOk sub.name then []
   else [⟨"name", "Name must be between 2 and 50 characters"⟩])
  ++ (if emailShapeOk sub.email then []
      else [⟨"email", "Invalid email address"⟩])
  ++ (if messageLenOk sub.message then []
      else [⟨"message", "Message must be between 10 and 1000 characters"⟩])

/-! ## The contact pipeline of src/routes/contactRoutes.js -/

/-- Outcomes of the four external calls made by the route, supplied as
inputs: the database save (raced with its 5s timer), createTransporter
(raced with its 5s timer), and the two sendMail calls (each raced with a
10s timer). A false value covers both a rejected call and its timeout. -/
structure PipelineEnv where
  dbSaveOk : Bool
  transporterOk : Bool
  adminSendOk : Bool
  replySendOk : Bool
deriving Repr, DecidableEq

/-- External calls attempted by one run of the route. -/
inductive Effect
  | persistAttempt
  | acquireAttempt
  | sendAdminAttempt
  | sendReplyAttempt
deriving Repr, DecidableEq

/-- The response of the contact route: a 400 rejection carrying the
violation details, or a 200 acceptance carrying the message text. -/
inductive ContactResponse
  | reject (details : List FieldViolation)
  | accept (msg : String)
deriving Repr, DecidableEq

def ContactResponse.status : ContactResponse → Nat
  | .reject _ => 400
  | .accept _ => 200

def ContactResponse.success : ContactResponse → Bool
  | .reject _ => false
  | .accept _ => true

/-- The record the mongoose schema persists for a submission: fields
trimmed, email lowercased, createdAt stamped now, isRead false. -/
def normalizeRecord (sub : Submission) (id now : Nat) : StoredRecord :=
  { id := id
    name := jsTrim sub.name
    email := lowerStr (jsTrim sub.email)
    message := jsTrim sub.message
    createdAt := now
    isRead := false }

/-- emailsSent counter of contactRoutes.js lines 135-152. -/
def emailsSentCount (env : PipelineEnv) : Nat :=
  (if env.adminSendOk then 1 else 0) + (if env.replySendOk then 1 else 0)

/-- Result of one run of the route: the response, the effect trace, and
the store after the run. -/
structure PipelineResult where
  resp : ContactResponse
  effects : List Effect
  store : List StoredRecord
deriving Repr, DecidableEq

/-- The POST handler of src/routes/contactRoutes.js lines 34-190.
Control flow of the source: validation failure returns 400 at once with
the collected details and performs no external call; the database save is
attempted inside its own try/catch and its failure only logs and
continues; createTransporter failure returns a 200 acceptance at once;
otherwise both sendMail calls are settled via Promise.allSettled and the
reply is one of three 200 acceptances chosen by how many mails were
fulfilled. -/
def routerPostContact (env : PipelineEnv) (sub : Submission)
    (store : List StoredRecord) (now : Nat) : PipelineResult :=
  if validateContact sub ≠ [] then
    ⟨.reject (validateContact sub), [], store⟩
  else
    let store1 :=
      if env.dbSaveOk then store ++ [normalizeRecord sub store.length now]
      else store
    let effs1 := [Effect.persistAttempt, Effect.acquireAttempt]
    if !env.transporterOk then
      ⟨.accept "Message received! We saved your message but email notifications are temporarily unavailable.",
       effs1, store1⟩
    else
      let effs2 := effs1 ++ [Effect.sendAdminAttempt, Effect.sendReplyAttempt]
      if emailsSentCount env = 2 then
        ⟨.accept "Message sent successfully!", effs2, store1⟩
      else if emailsSentCount env = 1 then
        ⟨.accept "Message received! One email notification was sent successfully.",
         effs2, store1⟩
      else
        ⟨.accept "Message received! We saved your message but email notifications failed.",
         effs2, store1⟩

/-! ## The outer catch of contactRoutes.js (lines 192-225) -/

/-- A JavaScript Error as inspected by the outer catch: its name and its
message. -/
structure JsError where
  name : String
  msg : String
deriving Repr, DecidableEq

/-- An error response of the outer catch: status, success flag, error
label and message text. -/
structure ErrorResponse where
  status : Nat
  success : Bool
  error : String
  msg : String
deriving Repr, DecidableEq

/-- The outer catch of the route: 408 when the error message contains
the word timeout, 400 for a mongoose ValidationError, 503 for a
MongoError or MongoServerError, 500 otherwise. -/
def handleTopLevelError (e : JsError) : ErrorResponse :=
  if containsSub e.msg "timeout" then
    ⟨408, false, "Request timeout",
     "The request took too long to process. Please try again."⟩
  else if e.name == "ValidationError" then
    ⟨400, false, "Database validation failed", "Please check your input data"⟩
  else if e.name == "MongoError" || e.name == "MongoServerError" then
    ⟨503, false, "Database temporarily unavailable",
     "Please try again in a few moments"⟩
  else
    ⟨500, false, "Internal server error",
     "Failed to process your message. Please try again later."⟩

/-! ## Cached transporter of src/unnamed/part_003 (utils/email.js) -/

/-- The module-level cache of the email utility: the cached transporter
handle (modelled as an opaque Nat) and the millisecond timestamp of its
creation. -/
structure TransporterCache where
  cachedTransporter : Option Nat
  lastTransporterCreation : Nat
deriving Repr, DecidableEq

/-- TRANSPORTER_CACHE_TIME of the source: 5 minutes in milliseconds. -/
def TRANSPORTER_CACHE_TIME : Nat := 5 * 60 * 1000

/-- Outcome of one construct-plus-verify attempt (the inner async block
raced with its 15s timer): a fresh handle, or an error (construction
failure, verify failure, or the timeout). -/
inductive BuildOutcome
  | ok (handle : Nat)
  | fail (err : String)
deriving Repr, DecidableEq

/-- What one acquisition yields. -/
inductive AcquireOutcome
  | acquired (handle : Nat)
  | failed (err : String)
deriving Repr, DecidableEq

/-- Result of createTransporter: the outcome, the cache state after the
call, and how many construct-plus-verify attempts were made (0 on a cache
hit, 1 otherwise). -/
structure AcquireResult where
  outcome : AcquireOutcome
  state : TransporterCache
  buildAttempts : Nat
deriving Repr, DecidableEq

/-- createTransporter of src/unnamed/part_003 lines 9-103. If a cached
transporter exists and Date.now() minus its creation time is below the
TTL, it is returned with no network call and no state change. Otherwise a
construct-plus-verify is attempted: on success the cache entry and its
timestamp are replaced; on failure the cache is cleared (handle to null,
timestamp to 0) and the error propagates. The age test uses integer
subtraction, as JavaScript does. -/
def createTransporter (st : TransporterCache) (now : Nat)
    (build : BuildOutcome) : AcquireResult :=
  match st.cachedTransporter with
  | some t =>
    if (now : Int) - (st.lastTransporterCreation : Int) <
        (TRANSPORTER_CACHE_TIME : Int) then
      ⟨.acquired t, st, 0⟩
    else
      match build with
      | .ok h => ⟨.acquired h, ⟨some h, now⟩, 1⟩
      | .fail e => ⟨.failed e, ⟨none, 0⟩, 1⟩
  | none =>
    match build with
    | .ok h => ⟨.acquired h, ⟨some h, now⟩, 1⟩
    | .fail e => ⟨.failed e, ⟨none, 0⟩, 1⟩

/-- The cache-hit condition of the source, as a predicate. -/
def cacheFresh (st : TransporterCache) (now : Nat) : Prop :=
  st.cachedTransporter.isSome = true ∧
  (now : Int) - (st.lastTransporterCreation : Int) < (TRANSPORTER_CACHE_TIME : Int)

instance (st : TransporterCache) (now : Nat) : Decidable (cacheFresh st now) :=
  inferInstanceAs (Decidable (_ ∧ _))

/-! ## Admin operations (adminController.js and the duplicate router in
authMiddleware.js) -/

/-- Sort key of Contact.find().sort with createdAt minus one: a record
sorts before another when its createdAt is at least as large. -/
def newerEq (a b : StoredRecord) : Prop := b.createdAt ≤ a.createdAt

instance : DecidableRel newerEq := fun _ _ => Nat.decLe _ _

/-- The store ordered newest-first by createdAt. -/
def sortNewestFirst (store : List StoredRecord) : List StoredRecord :=
  store.insertionSort newerEq

/-- getMessages of src/controllers/adminController.js lines 3-11 (also the
inline route of server.js): newest-first, limited to 50. -/
def getMessages (store : List StoredRecord) : List StoredRecord :=
  (sortNewestFirst store).take 50

/-- The duplicate messages route of src/middleware/authMiddleware.js lines
62-69: newest-first with no limit call. -/
def getMessagesNoLimit (store : List StoredRecord) : List StoredRecord :=
  sortNewestFirst store

/-- Outcome of markAsRead. -/
inductive MarkReadOutcome
  | ok
  | notFound
deriving Repr, DecidableEq

/-- The single-document update performed by findByIdAndUpdate with isRead
true: the first record carrying the id gets its isRead flag set; every
other record is untouched. -/
def setReadFirst : List StoredRecord → Nat → List StoredRecord
  | [], _ => []
  | r :: rest, i =>
    if r.id = i then { r with isRead := true } :: rest
    else r :: setReadFirst rest i

/-- markAsRead of src/controllers/adminController.js lines 13-26: a 404
not-found outcome with the store untouched when no record carries the id,
otherwise the single matching record has isRead set to true. -/
def markAsRead (store : List StoredRecord) (i : Nat) :
    MarkReadOutcome × List StoredRecord :=
  match store.find? (fun r => r.id == i) with
  | none => (.notFound, store)
  | some _ => (.ok, setReadFirst store i)

/-! ## Serverless handlers (src/api/contact.js and src/pages/api/contact.js) -/

/-- External calls of the serverless handler, in the order the source
awaits them. -/
inductive ApiEffect
  | connectDb
  | saveRecord
  | buildTransporter
  | sendAdminMail
  | sendReplyMail
deriving Repr, DecidableEq

/-- Response of the serverless handler: status, success flag, and the
error or message text of the JSON body. -/
structure ApiResponse where
  status : Nat
  success : Bool
  body : String
deriving Repr, DecidableEq

/-- The basic validation of src/api/contact.js lines 94-109: three checks
in sequence, each returning 400 at once with a single error string, so
only the first offending field is reported; only lower bounds and the
email shape are checked. -/
def apiValidate (sub : Submission) : Option String :=
  if (jsTrim sub.name).length < 2 then
    some "Name must be at least 2 characters"
  else if !emailShapeOk sub.email then
    some "Invalid email address"
  else if (jsTrim sub.message).length < 10 then
    some "Message must be at least 10 characters"
  else none

/-- Outcomes of the five awaited calls of the serverless handler; none
means the call fulfilled, some e means it threw with message e. -/
structure ApiEnv where
  connect : Option String
  save : Option String
  transporter : Option String
  adminSend : Option String
  replySend : Option String
deriving Repr, DecidableEq

/-- The default export handler of src/api/contact.js lines 82-160: a
405 for any non-POST method before anything else; then the fail-fast
basic validation; then the five awaited calls in sequence inside one
try/catch, any throw producing a 500 whose body is the error message. -/
def apiContactHandler (method : String) (sub : Submission) (env : ApiEnv) :
    ApiResponse × List ApiEffect :=
  if method ≠ "POST" then (⟨405, false, "Method Not Allowed"⟩, [])
  else
    match apiValidate sub with
    | some err => (⟨400, false, err⟩, [])
    | none =>
      match env.connect with
      | some e => (⟨500, false, e⟩, [.connectDb])
      | none =>
        match env.save with
        | some e => (⟨500, false, e⟩, [.connectDb, .saveRecord])
        | none =>
          match env.transporter with
          | some e => (⟨500, false, e⟩, [.connectDb, .saveRecord, .buildTransporter])
          | none =>
            match env.adminSend with
            | some e =>
              (⟨500, false, e⟩,
               [.connectDb, .saveRecord, .buildTransporter, .sendAdminMail])
            | none =>
              match env.replySend with
              | some e =>
                (⟨500, false, e⟩,
                 [.connectDb, .saveRecord, .buildTransporter, .sendAdminMail,
                  .sendReplyMail])
              | none =>
                (⟨200, true, "Message sent successfully!"⟩,
                 [.connectDb, .saveRecord, .buildTransporter, .sendAdminMail,
                  .sendReplyMail])

/-- Body of the stub handler of src/pages/api/contact.js. -/
inductive PagesBody
  | okTrue
  | methodNotAllowed
deriving Repr, DecidableEq

/-- Response of the stub handler: status, the Allow header when set, and
the body. -/
structure PagesResponse where
  status : Nat
  allowHeader : Option String
  body : PagesBody
deriving Repr, DecidableEq

/-- The handler of src/pages/api/contact.js: 200 with ok true on POST,
otherwise an Allow POST header and a 405 Method Not Allowed. -/
def pagesContactHandler (method : String) : PagesResponse :=
  if method == "POST" then ⟨200, none, .okTrue⟩
  else ⟨405, some "POST", .methodNotAllowed⟩

/-! ## Admin login (authMiddleware.js router and the part_000 variant) -/

/-- A stored password credential: bcrypt hashing is modelled by an
injective constructor, and comparePassword by preimage comparison, which
is exactly the observable behaviour of bcrypt hash plus compare. -/
inductive StoredCredential
  | bcryptHash (secret : String)
deriving Repr, DecidableEq

/-- admin.comparePassword(candidate) against a stored credential. -/
def comparePassword (candidate : String) : StoredCredential → Bool
  | .bcryptHash s => candidate == s

/-- An Admin document keyed by email (authMiddleware.js). -/
structure AdminAccount where
  email : String
  password : StoredCredential
deriving Repr, DecidableEq

/-- An Admin document keyed by username (src/unnamed/part_000). -/
structure AdminUser where
  username : String
  password : StoredCredential
deriving Repr, DecidableEq

/-- The environment variables the login route reads. -/
structure AuthEnv where
  emailUser : String
  sessionSecret : String
deriving Repr, DecidableEq

/-- Login outcome: ok carries the email or username signed into the JWT;
unauthorized is the 401 invalid-credentials reply; notFound is a
404-style outcome that the authMiddleware route never produces (listed so
its absence is statable). -/
inductive LoginOutcome
  | ok (subject : String)
  | unauthorized
  | notFound
deriving Repr, DecidableEq

/-- The login route of src/middleware/authMiddleware.js lines 31-59: when
no admin matches the supplied email, a default admin is created with email
EMAIL_USER and password the bcrypt hash of SESSION_SECRET, and the
password check then runs against that created admin; 401 only on password
mismatch. Returns the outcome and the admin collection after the call. -/
def adminLogin (admins : List AdminAccount) (env : AuthEnv)
    (email password : String) : LoginOutcome × List AdminAccount :=
  match admins.find? (fun a => a.email == email) with
  | some admin =>
    if comparePassword password admin.password then (.ok admin.email, admins)
    else (.unauthorized, admins)
  | none =>
    let fresh : AdminAccount :=
      ⟨env.emailUser, .bcryptHash env.sessionSecret⟩
    if comparePassword password fresh.password then
      (.ok fresh.email, admins ++ [fresh])
    else (.unauthorized, admins ++ [fresh])

/-- loginAdmin of src/unnamed/part_000 lines 19-38: 401 when the admin is
unknown or the password does not match; no account is ever created. -/
def loginAdminVariant (admins : List AdminUser) (username password : String) :
    LoginOutcome :=
  match admins.find? (fun a => a.username == username) with
  | none => .unauthorized
  | some admin =>
    if comparePassword password admin.password then .ok admin.username
    else .unauthorized

/-! ## Concrete demonstration inputs -/

/-- A submission that passes the express validation. -/
def subDemo : Submission :=
  ⟨"Alice Example", "alice@example.com",
   "Hello there I would like to get in touch with you."⟩

/-- A 60-character name, above the upper bound of the express validator. -/
def overlongName : String := String.mk (List.replicate 60 'A')

/-- A submission whose name is out of bound (60 characters) while email
and message are fine. -/
def sub60 : Submission :=
  ⟨overlongName, "user@example.com", "This message is long enough to pass."⟩

/-- Serverless environment in which every awaited call fulfills. -/
def apiAllOk : ApiEnv := ⟨none, none, none, none, none⟩

/-! ## C1 -/

/-- C1 counterexample: the claim says the acceptance message text
discloses that the record may not have been saved. On the concrete run
where validation passes, the database save fails, and both mails go out,
the route replies with the plain full-success text, and that reply is
identical to the reply of the same run with the save succeeding — the
text is chosen only from the email outcomes and carries no storage
caveat, so the disclosure clause of the claim is false. -/
theorem c1_counterexample :
    (routerPostContact ⟨false, true, true, true⟩ subDemo [] 0).resp
      = ContactResponse.accept "Message sent successfully!" ∧
    (routerPostContact ⟨false, true, true, true⟩ subDemo [] 0).resp
      = (routerPostContact ⟨true, true, true, true⟩ subDemo [] 0).resp := by
  decide

/-- C1 (amended): for every submission passing validation, when the
persistence step fails the pipeline still attempts sender acquisition
(and both notification sends when the transporter is available), the
response is still a 200 acceptance with success true and no record is
stored — but the response is identical to that of the persistence-success
run, so its text does not disclose the storage failure. -/
theorem c1_persistenceFailureNotFatal (env : PipelineEnv) (sub : Submission)
    (store : List StoredRecord) (now : Nat)
    (hv : validateContact sub = []) (hdb : env.dbSaveOk = false) :
    Effect.persistAttempt ∈ (routerPostContact env sub store now).effects ∧
    Effect.acquireAttempt ∈ (routerPostContact env sub store now).effects ∧
    (env.transporterOk = true →
      Effect.sendAdminAttempt ∈ (routerPostContact env sub store now).effects ∧
      Effect.sendReplyAttempt ∈ (routerPostContact env sub store now).effects) ∧
    (routerPostContact env sub store now).resp.status = 200 ∧
    (routerPostContact env sub store now).resp.success = true ∧
    (routerPostContact env sub store now).resp =
      (routerPostContact { env with dbSaveOk := true } sub store now).resp ∧
    (routerPostContact env sub store now).store = store := by
  rcases env with ⟨db, tr, ad, rp⟩
  simp only at hdb
  subst hdb
  cases tr <;> cases ad <;> cases rp <;>
    simp [routerPostContact, hv, emailsSentCount, ContactResponse.status,
      ContactResponse.success]

/-- C1 witness: the amended theorem applied to the concrete failing-save
run. -/
theorem c1_persistenceFailureNotFatal_witness :
    (routerPostContact ⟨false, true, true, true⟩ subDemo [] 0).resp.status = 200 :=
  (c1_persistenceFailureNotFatal ⟨false, true, true, true⟩ subDemo [] 0
    (by decide) rfl).2.2.2.1

/-! ## C2 -/

/-- C2 counterexample: the claim quantifies over the contact endpoint
including the serverless handler of src/api/contact.js, but that handler
checks only lower bounds and fail-fasts. On a submission whose name is 60
characters (out of bound for the express validator) the serverless
handler rejects nothing: its validation passes, the run reaches the
persistence write and answers 200, contradicting the claimed 400
rejection and the claimed absence of a persistence write. -/
theorem c2_counterexample :
    nameLenOk sub60.name = false ∧
    apiValidate sub60 = none ∧
    (apiContactHandler "POST" sub60 apiAllOk).1.status = 200 ∧
    ApiEffect.saveRecord ∈ (apiContactHandler "POST" sub60 apiAllOk).2 := by
  decide

/-- C2 (amended): the express contact route of contactRoutes.js does
behave as claimed — any submission with a field out of bound is rejected
with a 400 carrying a violation for every offending field simultaneously,
with no external call and no store change; the serverless handler of
src/api/contact.js does not (it checks only lower bounds, fail-fast). -/
theorem c2_expressValidation (env : PipelineEnv) (sub : Submission)
    (store : List StoredRecord) (now : Nat)
    (h : nameLenOk sub.name = false ∨ emailShapeOk sub.email = false ∨
         messageLenOk sub.message = false) :
    routerPostContact env sub store now =
      ⟨ContactResponse.reject (validateContact sub), [], store⟩ ∧
    (routerPostContact env sub store now).resp.status = 400 ∧
    (routerPostContact env sub store now).resp.success = false ∧
    (nameLenOk sub.name = false →
      FieldViolation.mk "name" "Name must be between 2 and 50 characters"
        ∈ validateContact sub) ∧
    (emailShapeOk sub.email = false →
      FieldViolation.mk "email" "Invalid email address" ∈ validateContact sub) ∧
    (messageLenOk sub.message = false →
      FieldViolation.mk "message" "Message must be between 10 and 1000 characters"
        ∈ validateContact sub) := by
  have hname : nameLenOk sub.name = false →
      FieldViolation.mk "name" "Name must be between 2 and 50 characters"
        ∈ validateContact sub := by
    intro hf; simp [validateContact, hf]
  have hemail : emailShapeOk sub.email = false →
      FieldViolation.mk "email" "Invalid email address" ∈ validateContact sub := by
    intro hf; simp [validateContact, hf]
  have hmsg : messageLenOk sub.message = false →
      FieldViolation.mk "message" "Message must be between 10 and 1000 characters"
        ∈ validateContact sub := by
    intro hf; simp [validateContact, hf]
  have hne : validateContact sub ≠ [] := by
    rcases h with h | h | h
    · exact List.ne_nil_of_mem (hname h)
    · exact List.ne_nil_of_mem (hemail h)
    · exact List.ne_nil_of_mem (hmsg h)
  have heq : routerPostContact env sub store now =
      ⟨ContactResponse.reject (validateContact sub), [], store⟩ := by
    unfold routerPostContact
    rw [if_pos hne]
  refine ⟨heq, ?_, ?_, hname, hemail, hmsg⟩
  · rw [heq]; rfl
  · rw [heq]; rfl

/-- C2 witness: the amended theorem applied to the out-of-bound
submission sub60, whose name violates the upper bound. -/
theorem c2_expressValidation_witness :
    routerPostContact ⟨true, true, true, true⟩ sub60 [] 0 =
      ⟨ContactResponse.reject (validateContact sub60), [], []⟩ :=
  (c2_expressValidation ⟨true, true, true, true⟩ sub60 [] 0
    (Or.inl (by decide))).1

/-! ## C3 -/

/-- C3: after validation passes and the transporter is acquired, both
notification sends are attempted whatever the outcome of the other — the
effect trace contains both send attempts for every combination of send
outcomes — and the reply is a 200 acceptance with success true in all
cases, its text chosen by the tri-state count of fulfilled sends (2, 1,
or 0). -/
theorem c3_notificationIndependence (env : PipelineEnv) (sub : Submission)
    (store : List StoredRecord) (now : Nat)
    (hv : validateContact sub = []) (ht : env.transporterOk = true) :
    Effect.sendAdminAttempt ∈ (routerPostContact env sub store now).effects ∧
    Effect.sendReplyAttempt ∈ (routerPostContact env sub store now).effects ∧
    (routerPostContact env sub store now).resp.status = 200 ∧
    (routerPostContact env sub store now).resp.success = true ∧
    (routerPostContact env sub store now).resp = ContactResponse.accept
      (if emailsSentCount env = 2 then "Message sent successfully!"
       else if emailsSentCount env = 1 then
         "Message received! One email notification was sent successfully."
       else
         "Message received! We saved your message but email notifications failed.") := by
  rcases env with ⟨db, tr, ad, rp⟩
  simp only at ht
  subst ht
  cases db <;> cases ad <;> cases rp <;>
    simp [routerPostContact, hv, emailsSentCount, ContactResponse.status,
      ContactResponse.success]

/-- C3 witness: the theorem applied to the run where the admin mail fails
and the auto-reply succeeds (partial success). -/
theorem c3_notificationIndependence_witness :
    (routerPostContact ⟨true, true, false, true⟩ subDemo [] 0).resp =
      ContactResponse.accept
        "Message received! One email notification was sent successfully." :=
  (c3_notificationIndependence ⟨true, true, false, true⟩ subDemo [] 0
    (by decide) rfl).2.2.2.2

/-! ## C4 -/

/-- C4: the transporter cache of src/unnamed/part_003. A cached handle
younger than the 5-minute TTL is returned with no construct-plus-verify
attempt and no state change; when the reuse condition fails, a successful
construct-plus-verify replaces the cache entry and its timestamp, and any
failure clears the cache entry (handle to none, timestamp to 0) before
the error propagates. -/
theorem c4_transporterCache (st : TransporterCache) (now : Nat)
    (build : BuildOutcome) :
    TRANSPORTER_CACHE_TIME = 5 * 60 * 1000 ∧
    (∀ t, st.cachedTransporter = some t → cacheFresh st now →
      createTransporter st now build =
        ⟨AcquireOutcome.acquired t, st, 0⟩) ∧
    (¬ cacheFresh st now →
      (∀ h, build = BuildOutcome.ok h →
        createTransporter st now build =
          ⟨AcquireOutcome.acquired h, ⟨some h, now⟩, 1⟩) ∧
      (∀ e, build = BuildOutcome.fail e →
        createTransporter st now build =
          ⟨AcquireOutcome.failed e, ⟨none, 0⟩, 1⟩)) := by
  refine ⟨rfl, ?_, ?_⟩
  · rintro t ht ⟨_, hage⟩
    simp [createTransporter, ht, hage]
  · intro hnf
    rcases hst : st.cachedTransporter with _ | t
    · constructor
      · rintro h rfl; simp [createTransporter, hst]
      · rintro e rfl; simp [createTransporter, hst]
    · have hage : ¬ ((now : Int) - (st.lastTransporterCreation : Int) <
          (TRANSPORTER_CACHE_TIME : Int)) := by
        intro hlt
        exact hnf ⟨by simp [hst], hlt⟩
      constructor
      · rintro h rfl; simp [createTransporter, hst, hage]
      · rintro e rfl; simp [createTransporter, hst, hage]

/-- C4 witness: a cache entry created at time 0 is reused at time 1000
even when the build would fail, with the state untouched. -/
theorem c4_transporterCache_witness :
    createTransporter ⟨some 7, 0⟩ 1000 (BuildOutcome.fail "boom") =
      ⟨AcquireOutcome.acquired 7, ⟨some 7, 0⟩, 0⟩ :=
  (c4_transporterCache ⟨some 7, 0⟩ 1000 (BuildOutcome.fail "boom")).2.1 7 rfl
    (by exact ⟨rfl, by decide⟩)

/-! ## C5 -/

/-- Every response of the contact route is a 200 acceptance or a 400
rejection, and the success flag is true exactly on the 200 side. -/
theorem contactResponse_status_cases (r : ContactResponse) :
    (r.status = 200 ∨ r.status = 400) ∧ (r.status = 200 ↔ r.success = true) := by
  cases r <;> simp [ContactResponse.status, ContactResponse.success]

/-- C5 counterexample: the claim allows only 200, 400 and 500.  The outer
catch of the route answers 408 to any escaped error whose message
contains the word timeout — here the database save timeout error — which
is neither 200, 400 nor 500. -/
theorem c5_counterexample :
    (handleTopLevelError ⟨"Error", "Database save timeout"⟩).status = 408 ∧
    ¬ ((handleTopLevelError ⟨"Error", "Database save timeout"⟩).status = 200 ∨
       (handleTopLevelError ⟨"Error", "Database save timeout"⟩).status = 400 ∨
       (handleTopLevelError ⟨"Error", "Database save timeout"⟩).status = 500) := by
  decide

/-- C5 (amended): every anticipated outcome of the pipeline yields 200
(success true) or 400 (success false); an unanticipated fault reaching
the top-level catch yields success false with status 408 when its message
contains the word timeout, 400 when it is a mongoose ValidationError, 503
when it is a MongoError or MongoServerError, and 500 otherwise — so
besides 200, 400 and 500 the endpoint can also produce 408 and 503. -/
theorem c5_statusCodes (env : PipelineEnv) (sub : Submission)
    (store : List StoredRecord) (now : Nat) (e : JsError) :
    ((routerPostContact env sub store now).resp.status = 200 ∨
     (routerPostContact env sub store now).resp.status = 400) ∧
    ((routerPostContact env sub store now).resp.status = 200 ↔
     (routerPostContact env sub store now).resp.success = true) ∧
    (handleTopLevelError e).success = false ∧
    ((handleTopLevelError e).status = 408 ∨ (handleTopLevelError e).status = 400 ∨
     (handleTopLevelError e).status = 503 ∨ (handleTopLevelError e).status = 500) ∧
    (containsSub e.msg "timeout" = true → (handleTopLevelError e).status = 408) ∧
    (containsSub e.msg "timeout" = false → e.name = "ValidationError" →
      (handleTopLevelError e).status = 400) ∧
    (containsSub e.msg "timeout" = false →
      (e.name = "MongoError" ∨ e.name = "MongoServerError") →
      (handleTopLevelError e).status = 503) ∧
    (containsSub e.msg "timeout" = false → e.name ≠ "ValidationError" →
      e.name ≠ "MongoError" → e.name ≠ "MongoServerError" →
      (handleTopLevelError e).status = 500) := by
  refine ⟨(contactResponse_status_cases _).1, (contactResponse_status_cases _).2,
    ?_, ?_, ?_, ?_, ?_, ?_⟩
  · unfold handleTopLevelError; split_ifs <;> rfl
  · unfold handleTopLevelError; split_ifs <;> simp
  · intro h; simp [handleTopLevelError, h]
  · intro h hn; simp [handleTopLevelError, h, hn]
  · rintro h (hn | hn) <;> simp [handleTopLevelError, h, hn]
  · intro h h1 h2 h3
    simp only [handleTopLevelError, h]
    rw [if_neg, if_neg, if_neg] <;> simp [h1, h2, h3]

/-- C5 witness: the amended theorem applied to a Mongo server error. -/
theorem c5_statusCodes_witness :
    (handleTopLevelError ⟨"MongoServerError", "connection refused"⟩).status = 503 :=
  (c5_statusCodes ⟨true, true, true, true⟩ subDemo [] 0
    ⟨"MongoServerError", "connection refused"⟩).2.2.2.2.2.2.1
    (by decide) (Or.inr rfl)

/-! ## C6 -/

/-- Under unique ids, updating the first matching record is the same as
updating every matching record: the pointwise description of the
single-document update. -/
theorem setReadFirst_eq_map (store : List StoredRecord) (i : Nat)
    (hnd : (store.map StoredRecord.id).Nodup) :
    setReadFirst store i =
      store.map (fun r => if r.id = i then { r with isRead := true } else r) := by
  induction store with
  | nil => rfl
  | cons r rest ih =>
    rw [List.map_cons, List.nodup_cons] at hnd
    by_cases h : r.id = i
    · have hrest : ∀ r2 ∈ rest,
          (if r2.id = i then { r2 with isRead := true } else r2) = r2 := by
        intro r2 hr2
        have hne : r2.id ≠ i := by
          intro he
          have hm : r2.id ∈ rest.map StoredRecord.id :=
            List.mem_map_of_mem _ hr2
          rw [he, ← h] at hm
          exact hnd.1 hm
        simp [hne]
      simp [setReadFirst, h, List.map_congr_left hrest]
    · simp [setReadFirst, h, ih hnd.2]

/-- A demonstration store with two records. -/
def demoStore : List StoredRecord :=
  [⟨0, "Ann", "ann@x.co", "first message", 5, false⟩,
   ⟨1, "Bob", "bob@x.co", "second message", 9, false⟩]

/-- C6: mark-read on an id never created yields the not-found outcome and
leaves the store untouched; on an id that exists it yields ok and the new
store is the old one with isRead set to true exactly on the record
carrying that id — every record keeps its id, name, email, message and
createdAt, and every record with a different id keeps its isRead flag. -/
theorem c6_markAsRead (store : List StoredRecord) (i : Nat)
    (hnd : (store.map StoredRecord.id).Nodup) :
    ((∀ r ∈ store, r.id ≠ i) →
      markAsRead store i = (MarkReadOutcome.notFound, store)) ∧
    ((∃ r ∈ store, r.id = i) →
      (markAsRead store i).1 = MarkReadOutcome.ok ∧
      (markAsRead store i).2 =
        store.map (fun r => if r.id = i then { r with isRead := true } else r) ∧
      (markAsRead store i).2.length = store.length ∧
      (∀ r ∈ store, r.id ≠ i → r ∈ (markAsRead store i).2) ∧
      (∀ r2 ∈ (markAsRead store i).2, ∃ r ∈ store,
        r2.id = r.id ∧ r2.name = r.name ∧ r2.email = r.email ∧
        r2.message = r.message ∧ r2.createdAt = r.createdAt ∧
        r2.isRead = (if r.id = i then true else r.isRead))) := by
  constructor
  · intro hno
    have hfind : store.find? (fun r => r.id == i) = none :=
      List.find?_eq_none.mpr (fun r hr => by simp [hno r hr])
    simp [markAsRead, hfind]
  · rintro ⟨r0, hr0, hid⟩
    have hsome : (store.find? (fun r => r.id == i)).isSome := by
      rw [List.find?_isSome]
      exact ⟨r0, hr0, by simp [hid]⟩
    rcases Option.isSome_iff_exists.mp hsome with ⟨r1, hr1⟩
    have hval : markAsRead store i = (MarkReadOutcome.ok, setReadFirst store i) := by
      simp [markAsRead, hr1]
    have hmap := setReadFirst_eq_map store i hnd
    refine ⟨by rw [hval], by rw [hval]; exact hmap, ?_, ?_, ?_⟩
    · rw [hval]; simp [hmap]
    · intro r hr hne
      rw [hval]
      simp only [hmap]
      have : (fun r2 => if r2.id = i then { r2 with isRead := true } else r2) r = r := by
        simp [hne]
      exact this ▸ List.mem_map_of_mem _ hr
    · intro r2 hr2
      rw [hval] at hr2
      simp only [hmap] at hr2
      rcases List.mem_map.mp hr2 with ⟨r, hr, hfr⟩
      refine ⟨r, hr, ?_⟩
      by_cases h : r.id = i
      · simp [h] at hfr
        subst hfr
        simp [h]
      · simp [h] at hfr
        subst hfr
        simp [h]

/-- C6 witness: the theorem applied to the two-record demonstration
store, once with an unknown id and once with a present id. -/
theorem c6_markAsRead_witness :
    markAsRead demoStore 7 = (MarkReadOutcome.notFound, demoStore) ∧
    (markAsRead demoStore 1).1 = MarkReadOutcome.ok :=
  ⟨(c6_markAsRead demoStore 7 (by decide)).1 (by decide),
   ((c6_markAsRead demoStore 1 (by decide)).2 (by decide)).1⟩

/-! ## C7 -/

/-- C7 counterexample: the duplicate messages route of authMiddleware.js
sorts newest-first but never limits; on a store of 51 records it returns
all 51, contradicting the claimed limit of 50 for every store state. -/
def bigStore : List StoredRecord :=
  (List.range 51).map (fun k => ⟨k, "N", "n@x.co", "M", k, false⟩)

/-- C7 counterexample theorem: 51 records come back from the no-limit
variant on a 51-record store. -/
theorem c7_counterexample :
    (getMessagesNoLimit bigStore).length = 51 ∧
    ¬ ((getMessagesNoLimit bigStore).length ≤ 50) := by
  have h : (getMessagesNoLimit bigStore).length = 51 := by
    unfold getMessagesNoLimit sortNewestFirst
    rw [(List.perm_insertionSort newerEq bigStore).length_eq]
    simp [bigStore]
  exact ⟨h, by omega⟩

/-- C7 (amended): getMessages of adminController.js (and the server.js
inline route) returns at most 50 records, newest-first, and together with
the dropped suffix is a permutation of the store, every returned record
being at least as recent as every dropped one — the most recent 50 for
every store state; the duplicate route of authMiddleware.js returns the
full newest-first list with no limit. -/
theorem c7_getMessages (store : List StoredRecord) :
    (getMessages store).length ≤ 50 ∧
    List.Pairwise newerEq (getMessages store) ∧
    (getMessages store ++ (sortNewestFirst store).drop 50).Perm store ∧
    (∀ x ∈ getMessages store, ∀ y ∈ (sortNewestFirst store).drop 50,
      y.createdAt ≤ x.createdAt) ∧
    (getMessagesNoLimit store).length = store.length ∧
    List.Pairwise newerEq (getMessagesNoLimit store) := by
  haveI : IsTotal StoredRecord newerEq :=
    ⟨fun a b => Nat.le_total b.createdAt a.createdAt⟩
  haveI : IsTrans StoredRecord newerEq :=
    ⟨fun _ _ _ h1 h2 => Nat.le_trans h2 h1⟩
  have hsorted : List.Pairwise newerEq (sortNewestFirst store) :=
    List.sorted_insertionSort newerEq store
  have hperm : (sortNewestFirst store).Perm store :=
    List.perm_insertionSort newerEq store
  have hsplit := List.take_append_drop 50 (sortNewestFirst store)
  have hsorted2 : List.Pairwise newerEq
      ((sortNewestFirst store).take 50 ++ (sortNewestFirst store).drop 50) := by
    rw [hsplit]; exact hsorted
  refine ⟨?_, ?_, ?_, ?_, ?_, ?_⟩
  · exact List.length_take_le 50 _
  · exact List.Pairwise.sublist (List.take_sublist 50 _) hsorted
  · show ((sortNewestFirst store).take 50 ++ (sortNewestFirst store).drop 50).Perm store
    rw [hsplit]; exact hperm
  · intro x hx y hy
    exact (List.pairwise_append.mp hsorted2).2.2 x hx y hy
  · exact hperm.length_eq
  · exact hsorted

/-- C7 witness: the amended theorem applied to the demonstration store. -/
theorem c7_getMessages_witness : (getMessages demoStore).length ≤ 50 :=
  (c7_getMessages demoStore).1

/-! ## C8 -/

/-- C8: two back-to-back submissions of the identical payload, both
passing validation with the save succeeding, append two independent
records — contactRoutes.js constructs and saves a new Contact
unconditionally, with no lookup for an existing identical record — and
each run makes exactly one persistence attempt. -/
theorem c8_resubmission (env : PipelineEnv) (sub : Submission)
    (store : List StoredRecord) (now1 now2 : Nat)
    (hv : validateContact sub = []) (hdb : env.dbSaveOk = true) :
    (routerPostContact env sub store now1).store =
      store ++ [normalizeRecord sub store.length now1] ∧
    (routerPostContact env sub
        (routerPostContact env sub store now1).store now2).store =
      store ++ [normalizeRecord sub store.length now1,
                normalizeRecord sub (store.length + 1) now2] ∧
    (routerPostContact env sub
        (routerPostContact env sub store now1).store now2).store.length =
      store.length + 2 ∧
    (routerPostContact env sub store now1).effects.count Effect.persistAttempt = 1 := by
  rcases env with ⟨db, tr, ad, rp⟩
  simp only at hdb
  subst hdb
  have hstore : ∀ (st : List StoredRecord) (now : Nat),
      (routerPostContact ⟨true, tr, ad, rp⟩ sub st now).store =
        st ++ [normalizeRecord sub st.length now] := by
    intro st now
    cases tr <;> cases ad <;> cases rp <;>
      simp [routerPostContact, hv, emailsSentCount]
  have h1 := hstore store now1
  have h2 : (routerPostContact ⟨true, tr, ad, rp⟩ sub
      (routerPostContact ⟨true, tr, ad, rp⟩ sub store now1).store now2).store =
      store ++ [normalizeRecord sub store.length now1,
                normalizeRecord sub (store.length + 1) now2] := by
    rw [h1, hstore]
    simp
  refine ⟨h1, h2, ?_, ?_⟩
  · rw [h2]; simp
  · cases tr <;> cases ad <;> cases rp <;>
      simp [routerPostContact, hv, emailsSentCount, List.count_cons,
        List.count_append]

/-- C8 witness: the theorem applied to the demonstration submission
starting from the empty store. -/
theorem c8_resubmission_witness :
    (routerPostContact ⟨true, true, true, true⟩ subDemo
        (routerPostContact ⟨true, true, true, true⟩ subDemo [] 0).store 1).store.length
      = 2 :=
  (c8_resubmission ⟨true, true, true, true⟩ subDemo [] 0 1
    (by decide) rfl).2.2.1

/-! ## C9 -/

/-- C9: both serverless contact handlers answer 405 to any method other
than POST — the full handler of src/api/contact.js does so before
validation with an empty effect trace (no database call, no transporter,
no send), and the stub of src/pages/api/contact.js sets the Allow header
and ends with Method Not Allowed. -/
theorem c9_methodGuard (method : String) (sub : Submission) (env : ApiEnv)
    (h : method ≠ "POST") :
    apiContactHandler method sub env = (⟨405, false, "Method Not Allowed"⟩, []) ∧
    pagesContactHandler method = ⟨405, some "POST", PagesBody.methodNotAllowed⟩ := by
  constructor
  · simp [apiContactHandler, h]
  · simp [pagesContactHandler, h]

/-- C9 witness: the theorem applied to a GET request. -/
theorem c9_methodGuard_witness :
    apiContactHandler "GET" subDemo apiAllOk =
      (⟨405, false, "Method Not Allowed"⟩, []) :=
  (c9_methodGuard "GET" subDemo apiAllOk (by decide)).1

/-! ## C10 -/

/-- C10: in the authMiddleware.js login route, when no admin matches the
supplied email a default admin (email EMAIL_USER, password the bcrypt
hash of SESSION_SECRET) is created before the password check, so the
outcome is ok exactly when the password equals SESSION_SECRET and 401
otherwise — never a not-found outcome, for any collection; the loginAdmin
variant of src/unnamed/part_000 instead returns 401 when the admin is
unknown. -/
theorem c10_adminLogin (admins : List AdminAccount) (env : AuthEnv)
    (email password : String)
    (h : ∀ a ∈ admins, a.email ≠ email)
    (admins2 : List AdminUser) (username pw2 : String)
    (h2 : ∀ a ∈ admins2, a.username ≠ username) :
    (adminLogin admins env email password).2 =
      admins ++ [⟨env.emailUser, StoredCredential.bcryptHash env.sessionSecret⟩] ∧
    (adminLogin admins env email password).1 =
      (if password = env.sessionSecret then LoginOutcome.ok env.emailUser
       else LoginOutcome.unauthorized) ∧
    (∀ anyAdmins : List AdminAccount,
      (adminLogin anyAdmins env email password).1 ≠ LoginOutcome.notFound) ∧
    loginAdminVariant admins2 username pw2 = LoginOutcome.unauthorized := by
  have hfind : admins.find? (fun a => a.email == email) = none :=
    List.find?_eq_none.mpr (fun a ha => by simp [h a ha])
  have hfind2 : admins2.find? (fun a => a.username == username) = none :=
    List.find?_eq_none.mpr (fun a ha => by simp [h2 a ha])
  refine ⟨?_, ?_, ?_, ?_⟩
  · simp only [adminLogin, hfind]
    split <;> rfl
  · by_cases hp : password = env.sessionSecret <;>
      simp [adminLogin, hfind, comparePassword, hp]
  · intro anyAdmins
    unfold adminLogin
    cases hfa : anyAdmins.find? (fun a => a.email == email) <;>
      · simp only [hfa]
        split <;> simp
  · simp [loginAdminVariant, hfind2]

/-- C10 witness: logging into an empty admin collection with the session
secret as password creates the default admin and succeeds. -/
theorem c10_adminLogin_witness :
    (adminLogin [] ⟨"admin@x.co", "secret"⟩ "someone@x.co" "secret").2 =
      [] ++ [⟨"admin@x.co", StoredCredential.bcryptHash "secret"⟩] :=
  (c10_adminLogin [] ⟨"admin@x.co", "secret"⟩ "someone@x.co" "secret"
    (by simp) [] "u" "p" (by simp)).1

end Portfolio
